import Mathlib

/-!
Verification of the rv32 instruction-set-simulator core (rv32i_cpu /
rv32f_cpu headers) against its specification.

The repository ships the class headers `rv32i_cpu.h`, `rv32f_cpu.h` and
`rv32.h`.  Functions defined inline in those headers (`regi_val`,
`rv32_get_cpu_state`, `rv32_set_cpu_state`, `process_trap`, the base
`access_csr` / `csr_wr_mask`, `map_uint_to_float`, `map_float_to_uint`,
`increment_pc`) are embedded here directly from the source.  Routines that
are only declared in the headers (the instruction semantic routines,
`reset`, `handle_fexceptions`) are modelled from the specification; each
such definition carries a doc comment starting `Modelled from the spec:`.

Machine integers are embedded as `Nat` with explicit `% 2 ^ 32` where the
source performs a `uint32_t` cast or 32-bit wraparound.  Register files are
total functions out of `Fin 32` (the source arrays have
`RV32I_NUM_OF_REGISTERS = 32` cells), the CSR file out of `Fin 4096`
(`RV32I_CSR_SPACE_SIZE`, the 12-bit CSR address space of the spec).
-/

namespace RV32

/-- Modelled from the spec: the Machine privilege-level code
`RV32_PRIV_MACHINE` from `rv32i_cpu_hdr.h` (a header the repository does
not ship); the spec only says privilege "resets to Machine", the standard
RISC-V encoding of Machine mode is 3. -/
def RV32_PRIV_MACHINE : Nat := 3

/-- The RISC-V illegal-instruction synchronous exception cause code,
used as the `trap_type` argument of `process_trap`. -/
def RV32I_ILLEGAL_INSTR_CAUSE : Nat := 2

/-- Embedding of `rv32i_cpu::rv32i_hart_state` (rv32i_cpu.h, lines 74-92):
32 integer registers `x`, 32 floating-point registers `f`, a CSR file of
4096 cells and the program counter.  The C++ cells are `uint64_t`; the
embedding stores their numeric contents as `Nat`, with the `uint32_t`
truncations of the source made explicit at each use site. -/
structure rv32i_hart_state where
  x : Fin 32 → Nat
  f : Fin 32 → Nat
  csr : Fin 4096 → Nat
  pc : Nat

/-- Embedding of `rv32i_cpu::rv32i_state` (rv32i_cpu.h, lines 96-105): the
per-hart register sets plus the current privilege level.  The hart count
`RV32I_NUM_OF_HARTS` comes from the missing header, so the embedding is
parametric in it. -/
structure rv32i_state (numHarts : Nat) where
  hart : Fin numHarts → rv32i_hart_state
  priv_lvl : Nat

/-- Embedding of the `rv32i_cpu` object state: the register state together
with the member variables the claims touch (`curr_hart`, `cycle_count`,
`instret_count`, `reset_vector`; rv32i_cpu.h lines 189, 262, 308, 324). -/
structure rv32i_cpu (numHarts : Nat) where
  state : rv32i_state numHarts
  curr_hart : Fin numHarts
  cycle_count : Nat
  instret_count : Nat
  reset_vector : Nat

/-- Embedding of `rv32i_cpu::regi_val` (rv32i_cpu.h, lines 137-140):
`return (uint32_t)state.hart[curr_hart].x[reg_idx % RV32I_NUM_OF_REGISTERS];`
with `RV32I_NUM_OF_REGISTERS = 32`.  The index is reduced modulo the
register count before the array access and the 64-bit cell is truncated to
32 bits by the cast. -/
def regi_val {n : Nat} (c : rv32i_cpu n) (reg_idx : Nat) : Nat :=
  (c.state.hart c.curr_hart).x ⟨reg_idx % 32, Nat.mod_lt _ (by omega)⟩ % 2 ^ 32

/-- Embedding of `rv32i_cpu::rv32_get_cpu_state` (rv32i_cpu.h, line 148):
`return state.hart[hart_num];`. -/
def rv32_get_cpu_state {n : Nat} (c : rv32i_cpu n) (hart_num : Fin n) :
    rv32i_hart_state :=
  c.state.hart hart_num

/-- Embedding of `rv32i_cpu::rv32_set_cpu_state` (rv32i_cpu.h, line 149):
`state.hart[hart_num] = s;`. -/
def rv32_set_cpu_state {n : Nat} (c : rv32i_cpu n) (s : rv32i_hart_state)
    (hart_num : Fin n) : rv32i_cpu n :=
  { c with state := { c.state with
      hart := Function.update c.state.hart hart_num s } }

/-- Embedding of the base-class `rv32i_cpu::process_trap` (rv32i_cpu.h,
lines 363-367): the PC of the current hart is redirected to the fixed
MTVEC address and the cycle counter is advanced by the trap penalty; the
`trap_type` argument is ignored and nothing else is touched.  The constants
`RV32I_FIXED_MTVEC_ADDR` and `RV32I_TRAP_EXTRA_CYCLES` are defined in the
missing `rv32i_cpu_hdr.h`, so they are taken as parameters. -/
def process_trap {n : Nat} (mtvecAddr trapExtraCycles : Nat)
    (_trap_type : Nat) (c : rv32i_cpu n) : rv32i_cpu n :=
  { c with
    state := { c.state with
      hart := Function.update c.state.hart c.curr_hart
        { c.state.hart c.curr_hart with pc := mtvecAddr } }
    cycle_count := c.cycle_count + trapExtraCycles }

/-- Embedding of the base-class placeholder `rv32i_cpu::access_csr`
(rv32i_cpu.h, line 347): `{ return 1; }` — every CSR access in the
no-Zicsr configuration returns the failure code 1 and touches no state. -/
def access_csr (_funct3 _addr _rd _value : Nat) : Nat := 1

/-- Embedding of the base-class placeholder `rv32i_cpu::csr_wr_mask`
(rv32i_cpu.h, line 348): `{ unimp = true; return 0; }`, returned here as
the pair (unimp flag, mask). -/
def csr_wr_mask (_addr : Nat) : Bool × Nat := (true, 0)

/-- Modelled from the spec: the SYSTEM-opcode CSR dispatch of `execute()`
(rv32i_cpu.cpp, not shipped in the repository).  Per the spec, "If Zicsr is
absent, any CSR access raises an illegal-instruction trap": a nonzero
return from `access_csr` raises an illegal-instruction trap, entered
through `process_trap`.  The second component reports the raised trap
cause. -/
def exec_csr_instr {n : Nat} (mtvecAddr trapExtraCycles : Nat)
    (c : rv32i_cpu n) (funct3 addr rd value : Nat) :
    rv32i_cpu n × Option Nat :=
  if access_csr funct3 addr rd value = 0 then (c, none)
  else (process_trap mtvecAddr trapExtraCycles RV32I_ILLEGAL_INSTR_CAUSE c,
        some RV32I_ILLEGAL_INSTR_CAUSE)

/-- Modelled from the spec: `rv32i_cpu::reset`, declared at rv32i_cpu.h
line 337 but defined in the missing `rv32i_cpu.cpp`.  Per the spec,
"state is zero-initialised on reset; PC is set to the reset vector;
privilege level resets to Machine; cycle and retired counters reset to
zero". -/
def reset {n : Nat} (c : rv32i_cpu n) : rv32i_cpu n :=
  { state :=
      { hart := fun _ =>
          { x := fun _ => 0
            f := fun _ => 0
            csr := fun _ => 0
            pc := c.reset_vector }
        priv_lvl := RV32_PRIV_MACHINE }
    curr_hart := c.curr_hart
    cycle_count := 0
    instret_count := 0
    reset_vector := c.reset_vector }

/-- Embedding of `rv32i_cpu::reset_cpu` (rv32i_cpu.h, line 134):
`{ reset(); }`. -/
def reset_cpu {n : Nat} (c : rv32i_cpu n) : rv32i_cpu n := reset c

/-- Modelled from the spec: the integer register write-back channel shared
by the instruction semantic routines (rv32i_cpu.cpp, not shipped).  Per the
spec, each routine "writes back to rd (except x0)" and "x[0] reads as zero
and ignores writes": a write targeting x0 is silently dropped. -/
def write_x (h : rv32i_hart_state) (rd : Fin 32) (v : Nat) :
    rv32i_hart_state :=
  if rd = 0 then h else { h with x := Function.update h.x rd v }

/-- A run's worth of integer register write-backs, applied in program
order through `write_x`; models the only way the semantic routines mutate
the x register file. -/
def applyWrites (h : rv32i_hart_state) : List (Fin 32 × Nat) →
    rv32i_hart_state
  | [] => h
  | (rd, v) :: ws => applyWrites (write_x h rd v) ws

/-- The IEEE-754 binary32 NaN test on a 32-bit pattern: exponent field
all-ones and nonzero mantissa (bit-level reading of `std::isnan` on the
reinterpreted float). -/
def isNaN32 (bits : Nat) : Bool :=
  decide ((bits / 2 ^ 23) % 2 ^ 8 = 0xFF ∧ bits % 2 ^ 23 ≠ 0)

/-- Embedding of `rv32f_cpu::map_uint_to_float` (rv32f_cpu.h, lines
143-146): `return *((float*)&num);`.  On the little-endian host the
pointer cast reads the low 32 bits of the 64-bit register cell and
reinterprets them as a float; the embedding works on bit patterns, so the
function returns those low 32 bits.  No NaN-boxing check is performed. -/
def map_uint_to_float (num : Nat) : Nat := num % 2 ^ 32

/-- Embedding of `rv32f_cpu::map_float_to_uint` (rv32f_cpu.h, lines
148-152): the float's bit pattern, with the sign bit cleared when the
value is a NaN and `make_pos` is set. -/
def map_float_to_uint (bits : Nat) (make_pos : Bool) : Nat :=
  bits % 2 ^ 32 &&&
    (if isNaN32 (bits % 2 ^ 32) && make_pos then 0x7fffffff else 0xffffffff)

/-- Modelled from the spec: `rv32f_cpu::fmvwx`, declared at rv32f_cpu.h
line 179 but defined in the missing `rv32f_cpu.cpp`.  Per the spec, fmv.w.x
is a "bit-wise move, no conversion, no flags", and a single written to f[]
is NaN-boxed ("the high 32 bits are set to all-ones when a single is
written"): the resulting 64-bit f-register cell. -/
def fmvwx (v : Nat) : Nat := 0xFFFFFFFF * 2 ^ 32 + v % 2 ^ 32

/-- Modelled from the spec: `rv32f_cpu::fmvxw`, declared at rv32f_cpu.h
line 180 but defined in the missing `rv32f_cpu.cpp`.  Per the spec, fmv.x.w
is a "bit-wise move, no conversion, no flags": the integer destination
receives the low 32 bits of the f-register cell and fcsr is untouched. -/
def fmvxw (cell : Nat) : Nat := cell % 2 ^ 32

/-- Modelled from the spec: `rv32f_cpu::handle_fexceptions`, declared at
rv32f_cpu.h line 124 but defined in the missing `rv32f_cpu.cpp`.  Per the
spec, "After every F operation, host-accumulated exception bits are OR'd
into fflags": the new fflags value is the bitwise OR of the old one with
the (5-bit) image of the host exception flags. -/
def handle_fexceptions (fflags hostFlags : Nat) : Nat :=
  fflags ||| hostFlags % 2 ^ 5

/-- Two's-complement reading of a 32-bit pattern. -/
def toSigned32 (x : Nat) : Int :=
  if x % 2 ^ 32 < 2 ^ 31 then (x % 2 ^ 32 : Nat) else (x % 2 ^ 32 : Nat) - 2 ^ 32

/-- 32-bit arithmetic (sign-preserving) right shift: floor division of the
two's-complement value, re-encoded as an unsigned 32-bit pattern. -/
def sra32 (x n : Nat) : Nat :=
  (Int.fdiv (toSigned32 x) (2 ^ n) % (2 ^ 32 : Int)).toNat

/-- Modelled from the spec: `rv32i_cpu::sllr` (sll), declared at
rv32i_cpu.h line 504, body in the missing `rv32i_cpu.cpp`.  Per the spec,
"Shift amounts are the low 5 bits of the shift source". -/
def sllr (rs1 rs2 : Nat) : Nat := rs1 % 2 ^ 32 * 2 ^ (rs2 % 32) % 2 ^ 32

/-- Modelled from the spec: `rv32i_cpu::srlr` (srl), declared at
rv32i_cpu.h line 508; logical right shift by the low 5 bits of rs2. -/
def srlr (rs1 rs2 : Nat) : Nat := rs1 % 2 ^ 32 / 2 ^ (rs2 % 32)

/-- Modelled from the spec: `rv32i_cpu::srar` (sra), declared at
rv32i_cpu.h line 509; arithmetic right shift by the low 5 bits of rs2. -/
def srar (rs1 rs2 : Nat) : Nat := sra32 rs1 (rs2 % 32)

/-- Modelled from the spec: `rv32i_cpu::slli`, declared at rv32i_cpu.h
line 498; same shift semantics as sll with the decoded shamt field. -/
def slli (rs1 shamt : Nat) : Nat := sllr rs1 shamt

/-- Modelled from the spec: `rv32i_cpu::srli`, declared at rv32i_cpu.h
line 499. -/
def srli (rs1 shamt : Nat) : Nat := srlr rs1 shamt

/-- Modelled from the spec: `rv32i_cpu::srai`, declared at rv32i_cpu.h
line 500. -/
def srai (rs1 shamt : Nat) : Nat := srar rs1 shamt

-- ---------------------------------------------------------------------
-- Theorems
-- ---------------------------------------------------------------------

theorem write_x_preserves_x0 (h : rv32i_hart_state) (rd : Fin 32)
    (v : Nat) : (write_x h rd v).x 0 = h.x 0 := by
  unfold write_x
  by_cases hrd : rd = 0
  · simp [hrd]
  · simp [hrd, Function.update_apply, Ne.symm hrd]

/-- Claim C1: writes targeting x0 are silently dropped by the write-back
channel, so along any sequence of instruction write-backs the value read
from x[0] never changes; from the reset state (where it is zero) it
therefore reads as zero at every observable point. -/
theorem C1_x0_reads_zero :
    (∀ (h : rv32i_hart_state) (v : Nat), write_x h 0 v = h) ∧
    (∀ (h : rv32i_hart_state) (ws : List (Fin 32 × Nat)),
      (applyWrites h ws).x 0 = h.x 0) ∧
    (∀ (n : Nat) (c : rv32i_cpu n) (hh : Fin n)
      (ws : List (Fin 32 × Nat)),
      (applyWrites ((reset_cpu c).state.hart hh) ws).x 0 = 0) := by
  have hrun : ∀ (h : rv32i_hart_state) (ws : List (Fin 32 × Nat)),
      (applyWrites h ws).x 0 = h.x 0 := by
    intro h ws
    induction ws generalizing h with
    | nil => rfl
    | cons w ws ih =>
        obtain ⟨rd, v⟩ := w
        calc (applyWrites (write_x h rd v) ws).x 0
            = (write_x h rd v).x 0 := ih _
          _ = h.x 0 := write_x_preserves_x0 h rd v
  refine ⟨fun h v => by simp [write_x], hrun, fun n c hh ws => ?_⟩
  rw [hrun]
  rfl

/-- Claim C2: fmv.w.x followed by fmv.x.w is the identity on 32-bit
values — the moves are exact bit-wise inverses (and, being pure bit moves,
touch no flags). -/
theorem C2_fmv_round_trip (v : Nat) (hv : v < 2 ^ 32) :
    fmvxw (fmvwx v) = v := by
  unfold fmvxw fmvwx
  omega

theorem C2_fmv_round_trip_witness : fmvxw (fmvwx 0xDEADBEEF) = 0xDEADBEEF :=
  C2_fmv_round_trip 0xDEADBEEF (by norm_num)

/-- Claim C3, counterexample: the f-register cell 0x3F800000 (the bits of
1.0f) has bits 63:32 equal to zero, not all-ones, yet `map_uint_to_float`
— the single operand-read primitive of rv32f_cpu — yields its low 32 bits
0x3F800000, not the canonical quiet NaN 0x7FC00000.  The source performs
no NaN-boxing check on reads. -/
theorem C3_counterexample :
    (0x3F800000 : Nat) / 2 ^ 32 ≠ 0xFFFFFFFF ∧
    map_uint_to_float 0x3F800000 ≠ 0x7FC00000 := by
  refine ⟨by norm_num, ?_⟩
  unfold map_uint_to_float
  norm_num

/-- Claim C3, amended: reading an f-register cell as a single-precision
operand yields the low 32 bits of the 64-bit cell verbatim, whatever the
upper 32 bits hold; no NaN-box check or canonicalisation is performed. -/
theorem C3_read_low_bits (hi lo : Nat) (hlo : lo < 2 ^ 32) :
    map_uint_to_float (hi * 2 ^ 32 + lo) = lo := by
  unfold map_uint_to_float
  omega

theorem C3_read_low_bits_witness :
    map_uint_to_float (0xABCD * 2 ^ 32 + 0x3F800000) = 0x3F800000 :=
  C3_read_low_bits 0xABCD 0x3F800000 (by norm_num)

/-- Claim C4: after `reset_cpu()` the PC of every hart equals the reset
vector, every integer and floating-point register cell is zero, the
privilege level is Machine, and the cycle and instructions-retired
counters are zero. -/
theorem C4_reset_state (n : Nat) (c : rv32i_cpu n) (hh : Fin n)
    (i : Fin 32) :
    ((reset_cpu c).state.hart hh).pc = c.reset_vector ∧
    ((reset_cpu c).state.hart hh).x i = 0 ∧
    ((reset_cpu c).state.hart hh).f i = 0 ∧
    (reset_cpu c).state.priv_lvl = RV32_PRIV_MACHINE ∧
    (reset_cpu c).cycle_count = 0 ∧
    (reset_cpu c).instret_count = 0 :=
  ⟨rfl, rfl, rfl, rfl, rfl, rfl⟩

/-- Claim C5: in the base (no-Zicsr) configuration every CSR access — for
all funct3 values, CSR addresses and operands — raises an
illegal-instruction trap (the base `access_csr` placeholder returns the
failure code for every input) and leaves the whole CSR space of every hart
unchanged. -/
theorem C5_csr_illegal_without_zicsr (n : Nat)
    (mtvecAddr trapExtraCycles : Nat) (c : rv32i_cpu n)
    (funct3 addr rd value : Nat) :
    access_csr funct3 addr rd value = 1 ∧
    (exec_csr_instr mtvecAddr trapExtraCycles c funct3 addr rd value).2 =
      some RV32I_ILLEGAL_INSTR_CAUSE ∧
    (∀ hh : Fin n,
      ((exec_csr_instr mtvecAddr trapExtraCycles c
          funct3 addr rd value).1.state.hart hh).csr =
        (c.state.hart hh).csr) := by
  refine ⟨rfl, by simp [exec_csr_instr, access_csr], fun hh => ?_⟩
  simp only [exec_csr_instr, access_csr, if_neg (by norm_num : (1 : Nat) ≠ 0)]
  simp only [process_trap, Function.update_apply]
  by_cases hcur : hh = c.curr_hart <;> simp [hcur]

/-- Claim C6: the base-configuration trap entry, for every trap cause,
sets the current hart's PC to the fixed MTVEC address and advances the
cycle counter by the trap penalty; every other guest-visible component —
the x, f and csr files of every hart, other harts' PCs, the privilege
level, the retired counter, the current hart and the reset vector — is
unchanged. -/
theorem C6_process_trap_effects (n : Nat)
    (mtvecAddr trapExtraCycles trap_type : Nat) (c : rv32i_cpu n) :
    ((process_trap mtvecAddr trapExtraCycles trap_type
        c).state.hart c.curr_hart).pc = mtvecAddr ∧
    (process_trap mtvecAddr trapExtraCycles trap_type c).cycle_count =
      c.cycle_count + trapExtraCycles ∧
    (∀ hh : Fin n,
      ((process_trap mtvecAddr trapExtraCycles trap_type
          c).state.hart hh).x = (c.state.hart hh).x ∧
      ((process_trap mtvecAddr trapExtraCycles trap_type
          c).state.hart hh).f = (c.state.hart hh).f ∧
      ((process_trap mtvecAddr trapExtraCycles trap_type
          c).state.hart hh).csr = (c.state.hart hh).csr ∧
      ((process_trap mtvecAddr trapExtraCycles trap_type
          c).state.hart hh).pc =
        if hh = c.curr_hart then mtvecAddr else (c.state.hart hh).pc) ∧
    (process_trap mtvecAddr trapExtraCycles trap_type c).state.priv_lvl =
      c.state.priv_lvl ∧
    (process_trap mtvecAddr trapExtraCycles trap_type c).instret_count =
      c.instret_count ∧
    (process_trap mtvecAddr trapExtraCycles trap_type c).curr_hart =
      c.curr_hart ∧
    (process_trap mtvecAddr trapExtraCycles trap_type c).reset_vector =
      c.reset_vector := by
  refine ⟨by simp [process_trap], rfl, fun hh => ?_, rfl, rfl, rfl, rfl⟩
  simp only [process_trap, Function.update_apply]
  by_cases hcur : hh = c.curr_hart <;> simp [hcur]

/-- Claim C7: the shift instructions depend only on the low 5 bits of the
shift-amount source (register and immediate forms alike), and srai applied
to the INT32_MIN pattern with shamt 31 yields the all-ones pattern, i.e.
-1 in two's complement: the arithmetic shift preserves the sign. -/
theorem C7_shift_low5_and_srai_min :
    (∀ rs1 rs2 : Nat, sllr rs1 rs2 = sllr rs1 (rs2 % 32)) ∧
    (∀ rs1 rs2 : Nat, srlr rs1 rs2 = srlr rs1 (rs2 % 32)) ∧
    (∀ rs1 rs2 : Nat, srar rs1 rs2 = srar rs1 (rs2 % 32)) ∧
    (∀ rs1 sh : Nat, slli rs1 sh = slli rs1 (sh % 32)) ∧
    (∀ rs1 sh : Nat, srli rs1 sh = srli rs1 (sh % 32)) ∧
    (∀ rs1 sh : Nat, srai rs1 sh = srai rs1 (sh % 32)) ∧
    srai 0x80000000 31 = 0xFFFFFFFF ∧
    toSigned32 (srai 0x80000000 31) = -1 := by
  have hmod : ∀ m : Nat, m % 32 % 32 = m % 32 := fun m => by omega
  refine ⟨fun rs1 rs2 => ?_, fun rs1 rs2 => ?_, fun rs1 rs2 => ?_,
    fun rs1 sh => ?_, fun rs1 sh => ?_, fun rs1 sh => ?_, ?_, ?_⟩
  · unfold sllr; rw [hmod]
  · unfold srlr; rw [hmod]
  · unfold srar; rw [hmod]
  · unfold slli sllr; rw [hmod]
  · unfold srli srlr; rw [hmod]
  · unfold srai srar; rw [hmod]
  · decide
  · decide

/-- Claim C8: fflags accumulation is sticky — after any F arithmetic
operation the new fflags value is an OR-superset of the prior one
(`old AND new = old`, i.e. every previously set bit stays set); the
accumulation path can only add bits, never clear them. -/
theorem C8_fflags_sticky (old hostFlags : Nat) :
    old &&& handle_fexceptions old hostFlags = old := by
  unfold handle_fexceptions
  apply Nat.eq_of_testBit_eq
  intro i
  simp only [Nat.testBit_and, Nat.testBit_or]
  cases h : old.testBit i <;> simp

/-- Claim C9: `regi_val` is total over all 32-bit indices — the index is
reduced modulo the register count 32 before the array access, so
out-of-range indices wrap rather than faulting, and the value returned is
the low 32 bits of the selected 64-bit cell of the current hart. -/
theorem C9_regi_val_total (n : Nat) (c : rv32i_cpu n) :
    (∀ idx : Nat, regi_val c idx = regi_val c (idx % 32)) ∧
    (∀ i : Fin 32,
      regi_val c i.val = (c.state.hart c.curr_hart).x i % 2 ^ 32) := by
  constructor
  · intro idx
    have hfin : (⟨idx % 32 % 32, Nat.mod_lt _ (by omega)⟩ : Fin 32) =
        ⟨idx % 32, Nat.mod_lt _ (by omega)⟩ :=
      Fin.ext (show idx % 32 % 32 = idx % 32 by omega)
    unfold regi_val
    rw [hfin]
  · intro i
    have hfin : (⟨i.val % 32, Nat.mod_lt _ (by omega)⟩ : Fin 32) = i :=
      Fin.ext (show i.val % 32 = i.val from Nat.mod_eq_of_lt i.isLt)
    unfold regi_val
    rw [hfin]

/-- Claim C10: hart-state save/restore round-trips — after
`rv32_set_cpu_state(s, h)`, `rv32_get_cpu_state(h)` returns exactly `s`
(the whole record: x, f, csr and pc), and reading any other hart returns
that hart's previous state unchanged. -/
theorem C10_state_roundtrip (n : Nat) (c : rv32i_cpu n)
    (s : rv32i_hart_state) (h h' : Fin n) :
    rv32_get_cpu_state (rv32_set_cpu_state c s h) h' =
      if h' = h then s else rv32_get_cpu_state c h' := by
  simp [rv32_get_cpu_state, rv32_set_cpu_state, Function.update_apply]

end RV32
